import Mathlib

/-!
Formal model of the Myntra product scraper (`src/myntra.py`).

The development embeds the extraction pipeline `scrape_products`
(lines 100-171), its per-child field resolution (lines 138-142), the
partial-failure handling (lines 157-163), the orchestrator result mapping
(`scrape`, lines 68-98, together with the final message dispatch of the
`__main__` block, lines 287-292), and the column-width formatting loop of
`save_to_excel` (lines 200-213).

HTML inputs are modelled after parsing: `soup.find(class_="results-base")`
either finds nothing (`none`) or yields the list of child nodes of the
container, in document order.  A child node is either a bs4
`NavigableString` (a bare text node) or a tag whose relevant sub-structure
is recorded field by field — exactly the parts that the five
field-extraction lines of `scrape_products` inspect.  A Python value that
can be either a string or `None` (the result of `attrs.get`) is modelled as
`Option String`, with `Option.none` standing for Python `None`.
-/

/-- Sub-structure of one child tag of the results container, as observed by
the five field-extraction lines of `scrape_products` (lines 138-142 of
`myntra.py`).  Each field records the outcome of the corresponding
`find` probe. -/
structure Child where
  /-- Probe `product.find(class_="product-product")`: `none` when the
  element is absent, otherwise its `.text`. -/
  nameText : Option String
  /-- Probe `product.find("picture")` / `.find("img")` (line 139): `none`
  when the guard `product.find("picture") and product.find("picture").find("img")`
  is falsy, otherwise `some (attrs.get "src")`; the inner `none` is a missing
  `src` attribute, i.e. Python `None`. -/
  pictureImg : Option (Option String)
  /-- Probe `product.find(class_="product-discountedPrice")`: `none` when
  absent, otherwise its `.text`. -/
  priceText : Option String
  /-- Probe `product.find(class_="product-ratingsContainer")` and then
  `.find("span")` (line 141): `none` = ratings container absent; `some none`
  = container present but without a `span`, in which case
  `.find("span").text` raises `AttributeError`; `some (some t)` = span with
  text `t`. -/
  ratingSpan : Option (Option String)
  /-- Probe `product.find("a")` (line 142): `none` when no anchor exists,
  otherwise `some (attrs.get "href")`; the inner `none` is an anchor without
  an `href` attribute, i.e. Python `None`. -/
  anchorHref : Option (Option String)
deriving DecidableEq

/-- One child node of the results container.  bs4 `Tag.children` yields both
tags and `NavigableString` text nodes; on a text node every
`find(class_=...)` call of lines 138-142 raises `TypeError` (it resolves to
`str.find`, which takes no keyword arguments). -/
inductive DomNode where
  | text (s : String)
  | tag (c : Child)
deriving DecidableEq

/-- Product record as assembled in the dict literal of lines 147-153.
`Image` is `Option String` because `attrs.get("src")` may be Python `None`,
which is stored in the dict unchanged; all other stored fields are genuine
strings on every path that reaches the dict construction. -/
structure ProductRecord where
  Name : String
  Image : Option String
  Price : String
  Rating : String
  Link : String
deriving DecidableEq

/-- Line 138: `product.find(class_=products_name_class).text if ... else ""`. -/
def resolveName (c : Child) : String :=
  match c.nameText with
  | none => ""
  | some t => t

/-- Line 139: `product.find("picture").find("img").attrs.get("src") if ... else ""`.
The fallback is the Python string `""`, hence `some ""`; a present `img`
contributes `attrs.get("src")`, which may be Python `None`. -/
def resolveImage (c : Child) : Option String :=
  match c.pictureImg with
  | none => some ""
  | some v => v

/-- Line 140: `product.find(class_=products_price_class).text if ... else ""`. -/
def resolvePrice (c : Child) : String :=
  match c.priceText with
  | none => ""
  | some t => t

/-- Line 141: `product.find(class_=products_rating_class).find("span").text
if product.find(class_=products_rating_class) else ""`.  The guard only
checks the ratings container, so a container without a `span` makes
`.find("span")` return `None` and `.text` raise `AttributeError`; that
raising outcome is modelled as `none`. -/
def resolveRating (c : Child) : Option String :=
  match c.ratingSpan with
  | none => some ""
  | some none => none
  | some (some t) => some t

/-- Line 142: `product.find("a").attrs.get('href') if product.find("a") else ""`.
The fallback is the Python string `""` (`some ""`); a present anchor
contributes `attrs.get('href')`, which may be Python `None` (`none`). -/
def resolveLink (c : Child) : Option String :=
  match c.anchorHref with
  | none => some ""
  | some v => v

/-- Outcome of processing one child of the container (one iteration of the
`for product in products` loop, lines 137-155). -/
inductive StepResult where
  /-- The `continue` at line 145: the child is filtered out. -/
  | skip
  /-- The child contributes a record appended at line 155. -/
  | emit (r : ProductRecord)
  /-- An `AttributeError` was raised during field extraction (line 141 with
  a ratings container lacking a `span`), caught at line 157. -/
  | attrError
  /-- A non-`AttributeError` exception was raised (a `TypeError`: either the
  child is a text node, or `url + '/' + product_link` with `product_link`
  equal to Python `None`), caught at line 161. -/
  | fatalError
deriving DecidableEq

/-- One iteration of the extraction loop, lines 137-155.  In the source the
name, image and price lines run before the rating line; they are pure and
never raise for a tag child, so evaluating the (possibly raising) rating
probe first is observationally identical. -/
def childStep (url : String) : DomNode → StepResult
  | .text _ => .fatalError
  | .tag c =>
    match resolveRating c with
    | none => .attrError
    | some rating =>
      if (resolveName c = "" ∧ resolvePrice c = "" ∧ resolveLink c = some "")
          ∨ resolveLink c = some "" then
        .skip
      else
        match resolveLink c with
        | none => .fatalError
        | some href =>
          .emit { Name := resolveName c, Image := resolveImage c,
                  Price := resolvePrice c, Rating := rating,
                  Link := url ++ "/" ++ href }

/-- Record contributed by a child when its step emits, `none` otherwise. -/
def emitOpt (url : String) (n : DomNode) : Option ProductRecord :=
  match childStep url n with
  | .emit r => some r
  | _ => none

/-- Result of running the whole `for` loop of lines 137-155 under the
`try` of line 120. -/
inductive LoopRes where
  /-- The loop completed; `recs` is the final `scrapped_products`. -/
  | done (recs : List ProductRecord)
  /-- An `AttributeError` stopped the loop; `recs` is `scrapped_products`
  as accumulated so far (the handler at line 157 receives it). -/
  | attrAbort (recs : List ProductRecord)
  /-- A non-`AttributeError` exception stopped the loop (handler line 161). -/
  | fatal
deriving DecidableEq

/-- Extraction loop of lines 137-155: fold over the (already truncated)
child list, appending emitted records to the accumulator
`scrapped_products`. -/
def extractLoop (url : String) (acc : List ProductRecord) : List DomNode → LoopRes
  | [] => .done acc
  | n :: rest =>
    match childStep url n with
    | .skip => extractLoop url acc rest
    | .emit r => extractLoop url (acc ++ [r]) rest
    | .attrError => .attrAbort acc
    | .fatalError => .fatal

/-- Value returned (or raised) by `scrape_products`. -/
inductive RetVal where
  /-- Return `True` (line 171) with the records that were passed to
  `save_to_excel`; in the spec's vocabulary this is status `Ok`. -/
  | ok (recs : List ProductRecord)
  /-- Return `0` (line 128); the spec's `EmptyContainer`. -/
  | emptyContainer
  /-- Return `None` (lines 160 and 163); the spec's `ParseFailure`. -/
  | parseFailure
  /-- An exception escapes `scrape_products` itself: with an absent
  container, `products_container.children` raises `AttributeError` (line
  124) and the handler at line 159 then evaluates `if not scrapped_products`
  before that local variable was ever assigned, raising
  `UnboundLocalError`, which propagates uncaught out of the function. -/
  | uncaught
deriving DecidableEq

/-- Observable side effects of one `scrape_products` run, in order. -/
inductive Event where
  /-- A call to `clean(file_path)` (temporary-artifact deletion). -/
  | cleanTemp
  /-- A call to `save_to_excel(scrapped_products)` (export). -/
  | exportRecords (recs : List ProductRecord)
deriving DecidableEq

/-- Return value plus the ordered side-effect trace of a
`scrape_products` run. -/
structure SPRun where
  ret : RetVal
  events : List Event
deriving DecidableEq

/-- Model of `scrape_products` (lines 100-171).  `url` is the module-level
global `url = "https://www.myntra.com"` read by line 152; `container` is
the result of `soup.find(class_="results-base")` as the container's child
list (`none` when the marker is absent); `productsScrape` is the requested
count.

The guard `if not products:` at line 125 can never fire for a present
container: bs4 `Tag.children` is `iter(self.contents)`, and an iterator is
always truthy in Python, so the `clean(file_path); return 0` branch it
guards is dead code and is elided here.

On the two `return None` paths (handlers at lines 157-163) execution leaves
the function before line 166, so neither `clean` nor `save_to_excel` runs:
the event trace is empty. -/
def scrapeProducts (url : String) (container : Option (List DomNode))
    (productsScrape : Nat) : SPRun :=
  match container with
  | none => { ret := .uncaught, events := [] }
  | some children =>
    match extractLoop url [] (children.take productsScrape) with
    | .done recs => { ret := .ok recs, events := [.cleanTemp, .exportRecords recs] }
    | .attrAbort recs =>
      if recs.isEmpty then { ret := .parseFailure, events := [] }
      else { ret := .ok recs, events := [.cleanTemp, .exportRecords recs] }
    | .fatal => { ret := .parseFailure, events := [] }

/-- Tri-state outcome printed by the `__main__` block (lines 287-292). -/
inductive Outcome where
  | Success
  | NoProducts
  | Failure
deriving DecidableEq

/-- Orchestrator mapping: `scrape` (lines 68-98) forwards a falsy
`scrape_products` result unchanged (`if not result: return result`),
returns `True` on success, and converts any exception that reaches it —
including one escaping `scrape_products` — to `None` via its
`except Exception` handler; `__main__` then prints the success message for
a truthy result, the no-products message for `0`, and the failure message
otherwise. -/
def runOutcome : RetVal → Outcome
  | .ok _ => .Success
  | .emptyContainer => .NoProducts
  | .parseFailure => .Failure
  | .uncaught => .Failure

/-- Column-width computation of `save_to_excel` (lines 200-213) for one
column, given the rendered text of its cells (header cell included, blank
cells rendered as `""`): `max_length` is folded over the cells, skipping
falsy values (`if cell.value:`), then the width is
`min(max_length + 2, 50)`. -/
def colWidth (cells : List String) : Nat :=
  min ((cells.foldl (fun m v => if v = "" then m else max m v.length) 0) + 2) 50

/-- Column width as the specification words it: the maximum rendered-text
length over all cells of the column (data rows and the header) plus a fixed
padding of 2, capped at 50.  Stated separately from `colWidth` so the two
can be compared. -/
def specColumnWidth (cells : List String) : Nat :=
  min (((cells.map String.length).foldl max 0) + 2) 50

/-- Columns of the written spreadsheet, as lists of rendered cell texts
with the header first.  `pd.DataFrame(products)` takes its columns from the
dict insertion order Name, Image, Price, Rating, Link (lines 147-153);
`df.to_excel(..., index=False)` writes one header row followed by the data
rows.  An empty record list yields a DataFrame with no columns, hence a
sheet with no populated columns.  A Python `None` in the Image field is
written as a blank cell, rendered here as `""`. -/
def sheetColumns (products : List ProductRecord) : List (List String) :=
  if products.isEmpty then []
  else
    [ "Name" :: products.map (fun r => r.Name),
      "Image" :: products.map (fun r => r.Image.getD ""),
      "Price" :: products.map (fun r => r.Price),
      "Rating" :: products.map (fun r => r.Rating),
      "Link" :: products.map (fun r => r.Link) ]

/-- Base URL: the module-level `url = "https://www.myntra.com"` that line 152
reads when resolving links. -/
def baseUrl : String := "https://www.myntra.com"

/-- Well-formed product tile: name and price elements present, a ratings
container absent, and an anchor with the given `href`. -/
def goodTile (nm pr href : String) : Child :=
  ⟨some nm, none, some pr, none, some (some href)⟩

/-- Record that `childStep baseUrl` emits for `goodTile nm pr href`. -/
def goodRec (nm pr href : String) : ProductRecord :=
  ⟨nm, some "", pr, "", baseUrl ++ "/" ++ href⟩

/-- Tile with every optional field missing but a present, non-empty link. -/
def bareLinkTile : Child := ⟨none, none, none, none, some (some "p1")⟩

/-- Tile whose ratings container exists but holds no `span`: line 141 raises
`AttributeError` on it. -/
def ratingNoSpanTile : Child := ⟨some "X", none, some "Y", some none, some (some "z")⟩

/-- Tile with no anchor at all: its resolved link is the fallback `""` and
the filter at line 144 drops it. -/
def noAnchorTile : Child := ⟨some "N", none, some "P", none, none⟩

/-- Tile whose `href` is already an absolute URL. -/
def absHrefTile : Child :=
  ⟨some "M", none, some "Q", none, some (some "https://cdn.example.com/img")⟩

/-- Container with four well-formed tiles followed by a tile that raises
`AttributeError` during field extraction. -/
def fiveTiles : List DomNode :=
  [ .tag (goodTile "A" "1" "a1"), .tag (goodTile "B" "2" "a2"),
    .tag (goodTile "C" "3" "a3"), .tag (goodTile "D" "4" "a4"),
    .tag ratingNoSpanTile ]

/-- Records accumulated from the first four tiles of `fiveTiles`. -/
def fourRecs : List ProductRecord :=
  [ goodRec "A" "1" "a1", goodRec "B" "2" "a2",
    goodRec "C" "3" "a3", goodRec "D" "4" "a4" ]

/-- Container with the same four well-formed tiles followed by a bare text
node (a `NavigableString` child of the container): its field extraction
raises `TypeError` at line 138, not `AttributeError`, so the handler at
line 161 returns `None` no matter what was accumulated. -/
def fourPlusText : List DomNode :=
  [ .tag (goodTile "A" "1" "a1"), .tag (goodTile "B" "2" "a2"),
    .tag (goodTile "C" "3" "a3"), .tag (goodTile "D" "4" "a4"),
    .text "advertisement" ]

/-- Concatenating the base URL, a slash and a raw href never yields the
empty string. -/
theorem concat_link_ne_empty (u h : String) : u ++ "/" ++ h ≠ "" := by
  intro heq
  have hlen : (u ++ "/" ++ h).length = ("" : String).length :=
    congrArg String.length heq
  rw [String.length_append, String.length_append] at hlen
  have hone : ("/" : String).length = 1 := rfl
  have hzero : ("" : String).length = 0 := rfl
  omega

/-- Inversion for an emitting step: the node is a tag, its resolved link is
a present, non-empty href, and the record's Link is the raw concatenation
of line 152. -/
theorem childStep_emit_shape (url : String) (nd : DomNode) (r : ProductRecord)
    (h : childStep url nd = .emit r) :
    ∃ c href, nd = .tag c ∧ resolveLink c = some href ∧ href ≠ "" ∧
      r.Link = url ++ "/" ++ href := by
  cases nd with
  | text s => simp [childStep] at h
  | tag c =>
    simp only [childStep] at h
    split at h
    · simp at h
    · split at h
      · simp at h
      next hcond =>
        split at h
        · simp at h
        next href hl =>
          cases h
          refine ⟨c, href, rfl, hl, ?_, rfl⟩
          intro he
          exact hcond (Or.inr (by rw [hl, he]))

/-- Completion of the extraction loop: the final accumulator is the initial
one followed by the emitted record of every child, in order. -/
theorem extractLoop_done_eq (url : String) :
    ∀ (cs : List DomNode) (acc recs : List ProductRecord),
      extractLoop url acc cs = .done recs →
      recs = acc ++ cs.filterMap (emitOpt url) := by
  intro cs
  induction cs with
  | nil =>
    intro acc recs h
    simp only [extractLoop] at h
    cases h
    simp
  | cons a rest ih =>
    intro acc recs h
    cases hs : childStep url a with
    | skip =>
      simp only [extractLoop, hs] at h
      simp [List.filterMap_cons, emitOpt, hs, ih acc recs h]
    | emit r =>
      simp only [extractLoop, hs] at h
      simp [List.filterMap_cons, emitOpt, hs, ih (acc ++ [r]) recs h]
    | attrError => simp [extractLoop, hs] at h
    | fatalError => simp [extractLoop, hs] at h

/-- An `AttributeError` abort of the extraction loop returns the initial
accumulator followed by the emissions of some prefix of the children. -/
theorem extractLoop_abort_eq (url : String) :
    ∀ (cs : List DomNode) (acc recs : List ProductRecord),
      extractLoop url acc cs = .attrAbort recs →
      ∃ k, recs = acc ++ (cs.take k).filterMap (emitOpt url) := by
  intro cs
  induction cs with
  | nil =>
    intro acc recs h
    simp [extractLoop] at h
  | cons a rest ih =>
    intro acc recs h
    cases hs : childStep url a with
    | skip =>
      simp only [extractLoop, hs] at h
      obtain ⟨k, hk⟩ := ih acc recs h
      exact ⟨k + 1, by
        simp [List.take_succ_cons, List.filterMap_cons, emitOpt, hs, hk]⟩
    | emit r =>
      simp only [extractLoop, hs] at h
      obtain ⟨k, hk⟩ := ih (acc ++ [r]) recs h
      exact ⟨k + 1, by
        simp [List.take_succ_cons, List.filterMap_cons, emitOpt, hs, hk]⟩
    | attrError =>
      simp only [extractLoop, hs] at h
      cases h
      exact ⟨0, by simp⟩
    | fatalError => simp [extractLoop, hs] at h

/-- Records returned with status `Ok` are exactly the emissions of a prefix
of the truncated child list. -/
theorem scrapeProducts_ok_shape (url : String) (cs : List DomNode) (n : Nat)
    (recs : List ProductRecord)
    (h : (scrapeProducts url (some cs) n).ret = .ok recs) :
    ∃ k, recs = ((cs.take n).take k).filterMap (emitOpt url) := by
  cases hE : extractLoop url [] (cs.take n) with
  | done recs2 =>
    have hr : recs2 = recs := by
      simp only [scrapeProducts, hE] at h
      simpa using h
    have hdone := extractLoop_done_eq url (cs.take n) [] recs2 hE
    exact ⟨(cs.take n).length, by
      rw [← hr, hdone, List.take_length]; simp⟩
  | attrAbort recs2 =>
    by_cases hemp : recs2.isEmpty
    · simp only [scrapeProducts, hE, hemp] at h
      simp at h
    · have hr : recs2 = recs := by
        simp only [scrapeProducts, hE, hemp] at h
        simpa using h
      obtain ⟨k, hk⟩ := extractLoop_abort_eq url (cs.take n) [] recs2 hE
      exact ⟨k, by rw [← hr, hk]; simp⟩
  | fatal =>
    simp only [scrapeProducts, hE] at h
    simp at h

/-- A `scrape_products` run either succeeds, deleting the artifact and then
exporting, or fails (`ParseFailure` or the uncaught error) with an empty
side-effect trace. -/
theorem scrapeProducts_run_cases (url : String)
    (container : Option (List DomNode)) (n : Nat) :
    (∃ recs, scrapeProducts url container n
        = { ret := .ok recs, events := [.cleanTemp, .exportRecords recs] })
    ∨ scrapeProducts url container n = { ret := .parseFailure, events := [] }
    ∨ scrapeProducts url container n = { ret := .uncaught, events := [] } := by
  cases container with
  | none => exact Or.inr (Or.inr rfl)
  | some cs =>
    cases hE : extractLoop url [] (cs.take n) with
    | done recs => exact Or.inl ⟨recs, by simp [scrapeProducts, hE]⟩
    | attrAbort recs =>
      by_cases hemp : recs.isEmpty
      · exact Or.inr (Or.inl (by simp [scrapeProducts, hE, hemp]))
      · exact Or.inl ⟨recs, by simp [scrapeProducts, hE, hemp]⟩
    | fatal => exact Or.inr (Or.inl (by simp [scrapeProducts, hE]))

/-- Folding the width accumulator while skipping falsy cells agrees with
folding the plain maximum of the lengths. -/
theorem foldl_skip_empty_eq_foldl_max (cells : List String) :
    ∀ m : Nat,
      cells.foldl (fun m v => if v = "" then m else max m v.length) m
        = cells.foldl (fun m v => max m v.length) m := by
  induction cells with
  | nil => intro m; rfl
  | cons v rest ih =>
    intro m
    by_cases hv : v = ""
    · subst hv; simp [List.foldl_cons, ih]
    · simp [List.foldl_cons, hv, ih]

/-- C1 (amended): for every HTML input lacking the results-container
marker, extraction does not return at all — `products_container.children`
raises `AttributeError` and the handler's premature read of
`scrapped_products` raises `UnboundLocalError`, which escapes the function
with no cleanup performed — and the orchestrator reports `Failure`, not
`NoProducts`. -/
theorem missing_container_raises_failure (url : String) (n : Nat) :
    (scrapeProducts url none n).ret = .uncaught
    ∧ (scrapeProducts url none n).events = []
    ∧ runOutcome (scrapeProducts url none n).ret = .Failure :=
  ⟨rfl, rfl, rfl⟩

/-- C1 (counterexample): on a concrete input without the results-container
marker, extraction does not yield status `EmptyContainer` and the
orchestrator does not report `NoProducts` — it raises and reports
`Failure`. -/
theorem missing_container_counterexample :
    (scrapeProducts baseUrl none 10).ret = .uncaught
    ∧ runOutcome (scrapeProducts baseUrl none 10).ret = .Failure
    ∧ (scrapeProducts baseUrl none 10).ret ≠ .emptyContainer
    ∧ runOutcome (scrapeProducts baseUrl none 10).ret ≠ .NoProducts := by
  decide

/-- C2: every record in an `Ok` extraction result has a non-empty `Link`,
and — for any child whose field extraction does not raise — the child is
skipped exactly when its resolved link is empty or when its name, price and
link are all simultaneously empty (the defensive double-filter of
line 144). -/
theorem extraction_link_invariant :
    (∀ (url : String) (container : Option (List DomNode)) (n : Nat)
        (recs : List ProductRecord),
        (scrapeProducts url container n).ret = .ok recs →
        ∀ r ∈ recs, r.Link ≠ "")
    ∧ (∀ (url : String) (c : Child), resolveRating c ≠ none →
        (childStep url (.tag c) = .skip ↔
          (resolveLink c = some "" ∨
            (resolveName c = "" ∧ resolvePrice c = "" ∧
              resolveLink c = some "")))) := by
  constructor
  · intro url container n recs h r hr
    cases container with
    | none => simp [scrapeProducts] at h
    | some cs =>
      obtain ⟨k, hk⟩ := scrapeProducts_ok_shape url cs n recs h
      rw [hk] at hr
      obtain ⟨nd, _, hemit⟩ := List.mem_filterMap.mp hr
      have hstep : childStep url nd = .emit r := by
        simp only [emitOpt] at hemit
        split at hemit
        next r2 heq =>
          simp only [Option.some.injEq] at hemit
          rw [← hemit]
          exact heq
        next => simp at hemit
      obtain ⟨c, href, _, _, _, hlink⟩ := childStep_emit_shape url nd r hstep
      rw [hlink]
      exact concat_link_ne_empty url href
  · intro url c hrat
    cases hr : resolveRating c with
    | none => exact absurd hr hrat
    | some rating =>
      simp only [childStep, hr]
      by_cases hcond : ((resolveName c = "" ∧ resolvePrice c = "" ∧
          resolveLink c = some "") ∨ resolveLink c = some "")
      · rw [if_pos hcond]
        exact iff_of_true rfl (by tauto)
      · rw [if_neg hcond]
        refine iff_of_false ?_ (by tauto)
        cases hl : resolveLink c <;> simp

/-- C2 (witness): the link invariant and filter characterization evaluated
on concrete inputs: a single bare-link tile emits a record with a non-empty
`Link`, and a tile without an anchor (resolved link `""`) is skipped. -/
theorem extraction_link_invariant_witness :
    (goodRec "A" "1" "a1").Link ≠ ""
    ∧ childStep baseUrl (.tag noAnchorTile) = .skip :=
  ⟨extraction_link_invariant.1 baseUrl (some [.tag (goodTile "A" "1" "a1")]) 10
      [goodRec "A" "1" "a1"] (by decide) (goodRec "A" "1" "a1") (by decide),
    (extraction_link_invariant.2 baseUrl noAnchorTile (by decide)).mpr
      (Or.inl (by decide))⟩

/-- C3 (counterexample): a structural error on the 5th of 5 children after
4 records were accumulated does not always yield those 4 records with `Ok`
and `Success`: when the 5th child is a text node, field extraction raises
`TypeError`, the `except Exception` handler at line 161 returns `None`
unconditionally, and the run ends as `ParseFailure` / `Failure` with the 4
accumulated records discarded.  The first conjunct certifies that the first
four children do accumulate exactly `fourRecs` before the error. -/
theorem partial_failure_counterexample :
    extractLoop baseUrl []
        [DomNode.tag (goodTile "A" "1" "a1"), .tag (goodTile "B" "2" "a2"),
          .tag (goodTile "C" "3" "a3"), .tag (goodTile "D" "4" "a4")]
      = .done fourRecs
    ∧ childStep baseUrl (.text "advertisement") = .fatalError
    ∧ (scrapeProducts baseUrl (some fourPlusText) 5).ret = .parseFailure
    ∧ (scrapeProducts baseUrl (some fourPlusText) 5).ret ≠ .ok fourRecs
    ∧ runOutcome (scrapeProducts baseUrl (some fourPlusText) 5).ret
        = .Failure := by
  decide

/-- C3 (amended): what happens when per-child field extraction raises
partway through the scan depends on the exception class.  An
`AttributeError` (the rating probe of line 141, caught at line 157) gives
`ParseFailure` when zero records were accumulated and otherwise returns
exactly the accumulated records with status `Ok`, reported as `Success`;
any other exception (the `TypeError` of a text-node child or of a `None`
href, caught at line 161) gives `ParseFailure` and outcome `Failure`
unconditionally, discarding whatever was accumulated. -/
theorem partial_failure_by_exception_class (url : String) (cs : List DomNode)
    (n : Nat) (acc : List ProductRecord) :
    (extractLoop url [] (cs.take n) = .attrAbort acc →
      (acc = [] →
        scrapeProducts url (some cs) n = { ret := .parseFailure, events := [] })
      ∧ (acc ≠ [] →
        (scrapeProducts url (some cs) n).ret = .ok acc
        ∧ runOutcome (scrapeProducts url (some cs) n).ret = .Success))
    ∧ (extractLoop url [] (cs.take n) = .fatal →
      scrapeProducts url (some cs) n = { ret := .parseFailure, events := [] }
      ∧ runOutcome (scrapeProducts url (some cs) n).ret = .Failure) := by
  constructor
  · intro h
    constructor
    · intro hacc
      subst hacc
      simp [scrapeProducts, h]
    · intro hacc
      have hne : acc.isEmpty = false := by
        simpa [List.isEmpty_iff] using hacc
      simp [scrapeProducts, h, hne, runOutcome]
  · intro h
    simp [scrapeProducts, h, runOutcome]

/-- C3 (witness): both branches at concrete inputs — the fifth of five
children raising `AttributeError` after four accumulated records returns
those four with `Ok` / `Success`, while the same four tiles followed by a
text node end as `ParseFailure` with an empty side-effect trace. -/
theorem partial_failure_by_exception_class_witness :
    ((scrapeProducts baseUrl (some fiveTiles) 5).ret = .ok fourRecs
      ∧ runOutcome (scrapeProducts baseUrl (some fiveTiles) 5).ret = .Success)
    ∧ scrapeProducts baseUrl (some fourPlusText) 5
        = { ret := .parseFailure, events := [] } :=
  ⟨((partial_failure_by_exception_class baseUrl fiveTiles 5 fourRecs).1
      (by decide)).2 (by decide),
    ((partial_failure_by_exception_class baseUrl fourPlusText 5 fourRecs).2
      (by decide)).1⟩

/-- C4 (divergence witness): with the container present but childless, the
emptiness guard of line 125 never fires (bs4 `children` is an always-truthy
iterator), so extraction proceeds with zero records, calls the export
(`save_to_excel([])`), returns `True`, and the orchestrator reports
`Success` — not `EmptyContainer` / `NoProducts` with no export call, as the
guard's own `return 0` intends. -/
theorem empty_container_divergence :
    scrapeProducts baseUrl (some []) 10
      = { ret := .ok [], events := [.cleanTemp, .exportRecords []] }
    ∧ runOutcome (scrapeProducts baseUrl (some []) 10).ret = .Success
    ∧ Event.exportRecords [] ∈ (scrapeProducts baseUrl (some []) 10).events
    ∧ (scrapeProducts baseUrl (some []) 10).ret ≠ .emptyContainer := by
  decide

/-- C5 (amended): the temporary artifact is deleted — and deleted before
export — exactly on the paths where `scrape_products` returns records
(status `Ok`); on extraction failure (`ParseFailure` or the uncaught error
of the absent-container path) the function returns from inside the handler
and the artifact is not deleted. -/
theorem cleanup_only_before_export (url : String)
    (container : Option (List DomNode)) (n : Nat) :
    (∀ recs, (scrapeProducts url container n).ret = .ok recs →
      (scrapeProducts url container n).events
        = [.cleanTemp, .exportRecords recs])
    ∧ (((scrapeProducts url container n).ret = .parseFailure
        ∨ (scrapeProducts url container n).ret = .uncaught) →
      Event.cleanTemp ∉ (scrapeProducts url container n).events) := by
  rcases scrapeProducts_run_cases url container n with ⟨recs, h⟩ | h | h <;>
    rw [h] <;> constructor
  · intro recs2 h2
    simp only [RetVal.ok.injEq] at h2
    rw [h2]
  · intro h2
    simp at h2
  · intro recs2 h2
    simp at h2
  · intro _
    simp
  · intro recs2 h2
    simp at h2
  · intro _
    simp

/-- C5 (witness): on a successful single-tile run the trace is exactly
deletion followed by export, and on a failing run (a lone tile whose
ratings container lacks a span) no deletion happens. -/
theorem cleanup_only_before_export_witness :
    (scrapeProducts baseUrl (some [.tag (goodTile "A" "1" "a1")]) 10).events
      = [.cleanTemp, .exportRecords [goodRec "A" "1" "a1"]]
    ∧ Event.cleanTemp ∉
        (scrapeProducts baseUrl (some [.tag ratingNoSpanTile]) 10).events :=
  ⟨(cleanup_only_before_export baseUrl (some [.tag (goodTile "A" "1" "a1")]) 10).1
      [goodRec "A" "1" "a1"] (by decide),
    (cleanup_only_before_export baseUrl (some [.tag ratingNoSpanTile]) 10).2
      (Or.inl (by decide))⟩

/-- C5 (counterexample): a concrete run whose extraction fails as
`ParseFailure` performs no temporary-file deletion at all — the artifact is
left on disk, contradicting unconditional deletion. -/
theorem cleanup_skipped_on_failure_counterexample :
    (scrapeProducts baseUrl (some [.tag ratingNoSpanTile]) 10).ret
      = .parseFailure
    ∧ Event.cleanTemp ∉
        (scrapeProducts baseUrl (some [.tag ratingNoSpanTile]) 10).events := by
  decide

/-- C6: an `Ok` extraction result never holds more than `maxCount` records,
and the records are a sublist of — hence in the same relative order as —
the per-child emission stream of the truncated child list, which is in
document order. -/
theorem extraction_bounded_and_ordered (url : String)
    (container : Option (List DomNode)) (n : Nat) (recs : List ProductRecord)
    (_hn : 0 < n)
    (h : (scrapeProducts url container n).ret = .ok recs) :
    recs.length ≤ n
    ∧ ∀ cs, container = some cs →
        List.Sublist recs ((cs.take n).filterMap (emitOpt url)) := by
  cases container with
  | none => simp [scrapeProducts] at h
  | some cs =>
    obtain ⟨k, hk⟩ := scrapeProducts_ok_shape url cs n recs h
    constructor
    · rw [hk]
      calc (((cs.take n).take k).filterMap (emitOpt url)).length
          ≤ ((cs.take n).take k).length := List.length_filterMap_le _ _
        _ ≤ n := by simp [List.length_take]
    · intro cs2 hcs2
      injection hcs2 with hcc
      subst hcc
      rw [hk]
      exact (List.take_sublist k (cs.take n)).filterMap (emitOpt url)

/-- C6 (witness): two tiles, `maxCount = 1`: the single returned record is
within the bound and is a sublist of the truncated emission stream. -/
theorem extraction_bounded_and_ordered_witness :
    ([goodRec "A" "1" "a1"] : List ProductRecord).length ≤ 1
    ∧ List.Sublist [goodRec "A" "1" "a1"]
        (([DomNode.tag (goodTile "A" "1" "a1"),
            DomNode.tag (goodTile "B" "2" "a2")].take 1).filterMap
          (emitOpt baseUrl)) :=
  ⟨(extraction_bounded_and_ordered baseUrl
      (some [.tag (goodTile "A" "1" "a1"), .tag (goodTile "B" "2" "a2")]) 1
      [goodRec "A" "1" "a1"] (by decide) (by decide)).1,
    (extraction_bounded_and_ordered baseUrl
      (some [.tag (goodTile "A" "1" "a1"), .tag (goodTile "B" "2" "a2")]) 1
      [goodRec "A" "1" "a1"] (by decide) (by decide)).2
      [.tag (goodTile "A" "1" "a1"), .tag (goodTile "B" "2" "a2")] rfl⟩

/-- C7: a child whose name, image, price and rating sub-elements are all
absent but whose link is present and non-empty still yields a record, with
the empty string for every missing field, both at the single-child step and
through the whole extraction. -/
theorem bare_link_child_still_emits (url href : String) (h : href ≠ "") :
    childStep url (.tag ⟨none, none, none, none, some (some href)⟩)
      = .emit ⟨"", some "", "", "", url ++ "/" ++ href⟩
    ∧ (scrapeProducts url
        (some [.tag ⟨none, none, none, none, some (some href)⟩]) 10).ret
      = .ok [⟨"", some "", "", "", url ++ "/" ++ href⟩] := by
  have hstep : childStep url (.tag ⟨none, none, none, none, some (some href)⟩)
      = .emit ⟨"", some "", "", "", url ++ "/" ++ href⟩ := by
    simp [childStep, resolveRating, resolveName, resolvePrice, resolveLink,
      resolveImage, h]
  refine ⟨hstep, ?_⟩
  simp [scrapeProducts, extractLoop, hstep]

/-- C7 (witness): the bare-link tile with href `"p1"` yields the record
with empty strings for every missing field. -/
theorem bare_link_child_still_emits_witness :
    childStep baseUrl (.tag ⟨none, none, none, none, some (some "p1")⟩)
      = .emit ⟨"", some "", "", "", baseUrl ++ "/" ++ "p1"⟩
    ∧ (scrapeProducts baseUrl
        (some [.tag ⟨none, none, none, none, some (some "p1")⟩]) 10).ret
      = .ok [⟨"", some "", "", "", baseUrl ++ "/" ++ "p1"⟩] :=
  bare_link_child_still_emits baseUrl "p1" (by decide)

/-- C8: every emitted record's `Link` is the raw concatenation of the base
URL, one `'/'`, and the child's raw href, with no normalization — the
equation holds whatever the shape of the href, absolute URLs and
leading-slash hrefs included. -/
theorem link_is_raw_concatenation (url : String) (c : Child)
    (r : ProductRecord) (h : childStep url (.tag c) = .emit r) :
    ∃ href, resolveLink c = some href ∧ r.Link = url ++ "/" ++ href := by
  obtain ⟨c2, href, hc2, hl, _, hlink⟩ :=
    childStep_emit_shape url (.tag c) r h
  injection hc2 with hcc
  subst hcc
  exact ⟨href, hl, hlink⟩

/-- C8 (witness): a tile whose href is already an absolute URL still gets
the concatenated, unnormalized link. -/
theorem link_is_raw_concatenation_witness :
    ∃ href, resolveLink absHrefTile = some href
      ∧ (ProductRecord.mk "M" (some "") "Q" ""
          (baseUrl ++ "/" ++ "https://cdn.example.com/img")).Link
        = baseUrl ++ "/" ++ href :=
  link_is_raw_concatenation baseUrl absHrefTile
    ⟨"M", some "", "Q", "", baseUrl ++ "/" ++ "https://cdn.example.com/img"⟩
    (by decide)

/-- C9: for every column of the written spreadsheet, the width computed by
the formatting loop (which skips falsy cells) equals the spec's formula —
the maximum rendered-text length over all cells of the column, header
included, plus a padding of 2, capped at 50. -/
theorem column_width_matches_spec (products : List ProductRecord)
    (col : List String) (_hcol : col ∈ sheetColumns products) :
    colWidth col = specColumnWidth col := by
  unfold colWidth specColumnWidth
  rw [foldl_skip_empty_eq_foldl_max, List.foldl_map]

/-- C9 (witness): the name column of a one-record sheet. -/
theorem column_width_matches_spec_witness :
    colWidth ["Name", "Blue Shirt"] = specColumnWidth ["Name", "Blue Shirt"] :=
  column_width_matches_spec [⟨"Blue Shirt", some "", "", "", "u"⟩]
    ["Name", "Blue Shirt"] (by decide)

/-- C10: truncation to `maxCount` is applied to the raw children before the
validity filter — the result of extraction depends only on the first
`maxCount` children — and consequently an input holding a valid product
tile can return fewer than `maxCount` records because an invalid child
inside the truncated window counts against the limit: with `maxCount = 1`
and children `[no-anchor tile, valid tile]`, the valid tile is never
examined and zero records come back. -/
theorem truncation_precedes_filter :
    (∀ (url : String) (cs : List DomNode) (n : Nat),
        scrapeProducts url (some cs) n = scrapeProducts url (some (cs.take n)) n)
    ∧ (∃ r, childStep baseUrl (.tag (goodTile "B" "2" "a2")) = .emit r)
    ∧ (([DomNode.tag noAnchorTile, DomNode.tag (goodTile "B" "2" "a2")].filterMap
          (emitOpt baseUrl)).length = 1)
    ∧ (scrapeProducts baseUrl
        (some [.tag noAnchorTile, .tag (goodTile "B" "2" "a2")]) 1).ret = .ok []
    ∧ ([] : List ProductRecord).length < 1 := by
  refine ⟨?_, ⟨goodRec "B" "2" "a2", by decide⟩, by decide, by decide, by decide⟩
  intro url cs n
  simp [scrapeProducts, List.take_take, Nat.min_self]
